import Mathlib

/-!
# Verification of the zoom-drive-connector recording pipeline

Shallow embedding of the repository `sanketsaurav/zoom-drive-connector`.
The repository ships two files under `src/`: the orchestrator
`zoom_drive_connector/__main__.py` (functions `download` and
`upload_and_notify`) and the test suite `tests/test_zoom.py`.  The zoom
client module itself (`zoom.ZoomAPI` with `generate_jwt`,
`get_recording_url`, `download_recording`, `delete_recording`,
`pull_file_from_zoom`) is not present under `src/`; those definitions are
modelled from the specification (its §§3–4 and the test suite's observed
behaviour), each marked `Modelled from the spec:` in its doc comment.

Network responses and filesystem outcomes are supplied through explicit
environment records; the local filesystem is a list of paths threaded
through the functions; raised exceptions become `Except` errors, and the
orchestration boundary that absorbs them becomes a total function
returning a `PullResult`.
-/

namespace ZoomDrive

/-- A parsed UTC timestamp (`datetime.datetime` without timezone info),
as produced by `strptime(date, "%Y-%m-%dT%H:%M:%SZ")`. -/
structure DateTime where
  year : Nat
  month : Nat
  day : Nat
  hour : Nat
  minute : Nat
  second : Nat
deriving Repr, DecidableEq

/-- One entry of the provider's `recording_files` JSON list, with the
fields the client reads (`file_type`, `recording_start`, `download_url`,
`id`). -/
structure RecordingFile where
  file_type : String
  recording_start : String
  download_url : String
  id : String
deriving Repr, DecidableEq

/-- Modelled from the spec: `RecordingSelection`, the media entry chosen
from a meeting's file list — its parsed start time, remote id and
download URL. -/
structure RecordingSelection where
  date : DateTime
  id : String
  url : String
deriving Repr, DecidableEq

/-- Modelled from the spec: `PullResult`, the only value returned to the
orchestrator: `{success: bool, date: optional timestamp, filename:
optional path}`. -/
structure PullResult where
  success : Bool
  date : Option DateTime
  filename : Option String
deriving Repr, DecidableEq

/-- Modelled from the spec: the typed failure raised by the zoom client's
REST calls (`ZoomAPIException` in the tests, `RemoteAPIError` in the
spec), carrying the response status code and the meeting id for
diagnostics.  A parse failure on a 200 response is surfaced as the same
error kind, carrying the actual (200) status. -/
inductive ZoomAPIException where
  | remoteAPIError (status : Nat) (meetingID : String) : ZoomAPIException
deriving Repr, DecidableEq

/-- Modelled from the spec: the failures `DownloadRecording` can raise —
a local-write failure (`FilesystemError`, the `OSError` of the tests)
kept distinct from a network failure. -/
inductive TransferError where
  | filesystemError : TransferError
  | networkError : TransferError
deriving Repr, DecidableEq

/-- The local filesystem, as the list of paths that currently exist. -/
abbrev FileSystem := List String

/-- The zoom section of the configuration file: issuer key, signing
secret, the delete flag and the configured meetings list. -/
structure Meeting where
  id : String
  name : String
  folder_id : String
  slack_channel : String
deriving Repr, DecidableEq

structure ZoomConfig where
  key : String
  secret : String
  delete : Bool
  meetings : List Meeting
deriving Repr, DecidableEq

/-- The internals section of the configuration: the shared scratch
directory for downloaded files (`/tmp` in the test configuration). -/
structure SystemConfig where
  target_folder : String
deriving Repr, DecidableEq

/-- Split a character list at every occurrence of the separator
character (Python's `str.split(sep)` for a one-character separator:
`splitOnChar '-' "a-b"` gives the groups `"a"` and `"b"`). -/
def splitOnChar (sep : Char) : List Char → List (List Char)
  | [] => [[]]
  | c :: cs =>
    match splitOnChar sep cs with
    | [] => if c == sep then [[], []] else [[c]]
    | g :: gs => if c == sep then [] :: g :: gs else (c :: g) :: gs

/-- Interpret a non-empty all-digit character list as a decimal number
(the numeric field parsing inside `strptime`). -/
def digitsToNat (s : List Char) : Option Nat :=
  if s.length > 0 && s.all (fun c => 48 ≤ c.toNat && c.toNat ≤ 57) then
    some (s.foldl (fun n c => n * 10 + (c.toNat - 48)) 0)
  else
    none

/-- Modelled from the spec: parsing a `recording_start` value with the
fixed format `%Y-%m-%dT%H:%M:%SZ` (literal example in the spec:
`"2018-01-01T01:01:01Z"` parses to `2018-01-01 01:01:01`).  Malformed
input yields `none`. -/
def parseZoomTimestamp (s : String) : Option DateTime :=
  match splitOnChar 'T' s.data with
  | [datePart, timePart] =>
    match splitOnChar '-' datePart, splitOnChar ':' timePart.dropLast with
    | [ys, ms, ds], [hs, mins, secs] =>
      if timePart.getLast? == some 'Z' then
        match digitsToNat ys, digitsToNat ms, digitsToNat ds,
              digitsToNat hs, digitsToNat mins, digitsToNat secs with
        | some y, some mo, some d, some h, some mi, some sec =>
          if 1 ≤ mo && mo ≤ 12 && 1 ≤ d && d ≤ 31 && h ≤ 23 && mi ≤ 59 && sec ≤ 61 then
            some ⟨y, mo, d, h, mi, sec⟩
          else none
        | _, _, _, _, _, _ => none
      else none
    | _, _ => none
  | _ => none

/-- Modelled from the spec: the check marking a recording file as the
primary media artifact (the tests use `file_type: "MP4"` for media and
`"CHAT"` for a transcript). -/
def isMediaType (t : String) : Bool :=
  t == "MP4"

/-- Modelled from the spec: the JWT payload `{iss, exp}` put into the
signed credential. -/
structure JWTPayload where
  iss : String
  exp : Nat
deriving Repr, DecidableEq

/-- A signed token: the payload together with the signing secret and
algorithm that produced the signature.  Signing is modelled as injective
in the payload (two HS256 tokens over the same secret agree exactly when
their payloads do). -/
structure SignedToken where
  payload : JWTPayload
  secret : String
  algorithm : String
deriving Repr, DecidableEq

/-- `jwt.encode(payload, secret, algorithm)`. -/
def jwt_encode (payload : JWTPayload) (secret : String) (algorithm : String) :
    SignedToken :=
  ⟨payload, secret, algorithm⟩

/-- Modelled from the spec: `GenerateCredential` (§4.1) — an HS256 token
over the configured secret whose payload has issuer claim equal to the
configured key and expiry 30 minutes (1800 seconds) from call time
`now`. -/
def generate_jwt (cfg : ZoomConfig) (now : Nat) : SignedToken :=
  jwt_encode ⟨cfg.key, now + 1800⟩ cfg.secret "HS256"

/-- Modelled from the spec: `GetRecordingURL` (§4.2).  Given the response
status and the parsed `recording_files` list of the authenticated read
request:
* status other than exactly 200 → `RemoteAPIError` carrying the status
  and meeting id;
* status 200 → pick the first media entry; none present is the valid
  empty selection (`none`), not an error;
* a malformed `recording_start` on the chosen entry is a parse failure,
  surfaced as the same error kind. -/
def get_recording_url (meetingID : String) (_token : SignedToken)
    (status : Nat) (files : List RecordingFile) :
    Except ZoomAPIException (Option RecordingSelection) :=
  if status ≠ 200 then
    .error (.remoteAPIError status meetingID)
  else
    match files.find? (fun f => isMediaType f.file_type) with
    | none => .ok none
    | some f =>
      match parseZoomTimestamp f.recording_start with
      | none => .error (.remoteAPIError status meetingID)
      | some dt => .ok (some ⟨dt, f.id, f.download_url⟩)

/-- The last path segment of a URL (the part after the final slash). -/
def lastURLSegment (url : String) : String :=
  String.mk ((splitOnChar '/' url.data).getLastD [])

/-- The outcome of the environment for one download: whether the sign-in
plus streamed GET succeed, and whether the local write completes. -/
structure TransferEnv where
  networkOk : Bool
  writeOk : Bool
deriving Repr, DecidableEq

/-- Modelled from the spec: `DownloadRecording` (§4.3 contract A).
Establishes the session, streams the body to
`<target_folder>/<lastURLSegment>.mp4`, returning that path and the
filesystem extended with it; fails with a network error if the provider
is unreachable and with `FilesystemError` if the local write cannot
complete. -/
def download_recording (sys : SystemConfig) (url : String)
    (env : TransferEnv) (fs : FileSystem) :
    Except TransferError (String × FileSystem) :=
  if !env.networkOk then
    .error .networkError
  else if !env.writeOk then
    .error .filesystemError
  else
    let path := sys.target_folder ++ "/" ++ lastURLSegment url ++ ".mp4"
    .ok (path, path :: fs)

/-- Modelled from the spec: `DeleteRecording` (§4.3 contract B).  Any
non-2xx response status — 404 "already gone" included — is a uniform
hard failure with `RemoteAPIError`. -/
def delete_recording (meetingID : String) (_recordingID : String)
    (_token : SignedToken) (status : Nat) :
    Except ZoomAPIException Unit :=
  if 200 ≤ status ∧ status < 300 then
    .ok ()
  else
    .error (.remoteAPIError status meetingID)

/-- The remote calls pull_file_from_zoom actually issues, in order, so
that "no download was attempted" is a statement about the run. -/
inductive ZoomEvent where
  | metaFetch (status : Nat) : ZoomEvent
  | downloadReq (url : String) : ZoomEvent
  | deleteReq (status : Nat) : ZoomEvent
deriving Repr, DecidableEq

/-- The environment of one pull_file_from_zoom call: the status and
parsed body of the metadata response, the transfer outcome and the status
of the delete response. -/
structure ZoomEnv where
  metaStatus : Nat
  metaFiles : List RecordingFile
  transfer : TransferEnv
  deleteStatus : Nat
deriving Repr, DecidableEq

/-- The uniform negative result `{success: False, date: None,
filename: None}`. -/
def failPull : PullResult := ⟨false, none, none⟩

/-- Modelled from the spec: `PullFileFromRemote` (§4.4), the sole entry
point of the core.  Generate a credential, fetch metadata, download,
optionally delete; every lower-layer failure (`RemoteAPIError`,
filesystem or network error) is absorbed here into `failPull` — the
function is total, no exception propagates.  Per the spec's design
note/bug-compatibility for step 5, the delete branch returns `failPull`
whatever the delete outcome; only the no-delete all-success path returns
`success: True`.  Returns the result, the updated filesystem and the
trace of remote calls issued. -/
def pull_file_from_zoom (cfg : ZoomConfig) (sys : SystemConfig) (now : Nat)
    (env : ZoomEnv) (meetingID : String) (rm : Bool) (fs : FileSystem) :
    PullResult × FileSystem × List ZoomEvent :=
  let token := generate_jwt cfg now
  match get_recording_url meetingID token env.metaStatus env.metaFiles with
  | .error _ => (failPull, fs, [.metaFetch env.metaStatus])
  | .ok none => (failPull, fs, [.metaFetch env.metaStatus])
  | .ok (some sel) =>
    match download_recording sys sel.url env.transfer fs with
    | .error _ =>
      (failPull, fs, [.metaFetch env.metaStatus, .downloadReq sel.url])
    | .ok (path, fs') =>
      if rm then
        -- the delete request is issued, but per §4.4 step 5 its outcome
        -- does not gate success: the branch returns the uniform failure
        let _ := delete_recording meetingID sel.id token env.deleteStatus
        (failPull, fs',
          [.metaFetch env.metaStatus, .downloadReq sel.url,
           .deleteReq env.deleteStatus])
      else
        (⟨true, some sel.date, some path⟩, fs',
          [.metaFetch env.metaStatus, .downloadReq sel.url])

/-! ## `__main__.py` (source under `src/`): `download` and
`upload_and_notify` -/

/-- Python truthiness of `res["filename"]` (a string or `None`): `None`
and the empty string are falsy. -/
def optStrTruthy : Option String → Bool
  | none => false
  | some s => s ≠ ""

/-- Left-pad a decimal rendering with zeros to the given width. -/
def padZeros (width n : Nat) : String :=
  let s := toString n
  String.mk (List.replicate (width - s.length) '0') ++ s

/-- `strftime("%Y%m%d")`. -/
def strftimeYmd (d : DateTime) : String :=
  padZeros 4 d.year ++ padZeros 2 d.month ++ padZeros 2 d.day

/-- `strftime("%B")`: the full month name. -/
def monthName : Nat → String
  | 1 => "January" | 2 => "February" | 3 => "March" | 4 => "April"
  | 5 => "May" | 6 => "June" | 7 => "July" | 8 => "August"
  | 9 => "September" | 10 => "October" | 11 => "November"
  | 12 => "December" | _ => ""

/-- `strftime("%B %d, %Y at %H:%M")`. -/
def strftimeLong (d : DateTime) : String :=
  monthName d.month ++ " " ++ padZeros 2 d.day ++ ", " ++ toString d.year
    ++ " at " ++ padZeros 2 d.hour ++ ":" ++ padZeros 2 d.minute

/-- Days from 1970-01-01 to the given civil date (the standard
days-from-civil computation; month/day are 1-based, year ≥ 1). -/
def daysFromCivil (y m d : Nat) : Int :=
  let yAdj := if m ≤ 2 then y - 1 else y
  let era := yAdj / 400
  let yoe := yAdj - era * 400
  let mp := if m > 2 then m - 3 else m + 9
  let doy := (153 * mp + 2) / 5 + d - 1
  let doe := yoe * 365 + yoe / 4 - yoe / 100 + doy
  (era * 146097 + doe : Int) - 719468

/-- `int(dt.replace(tzinfo=datetime.timezone.utc).timestamp())`: seconds
since the Unix epoch of a UTC datetime. -/
def unixTimestamp (d : DateTime) : Int :=
  daysFromCivil d.year d.month d.day * 86400
    + (d.hour * 3600 + d.minute * 60 + d.second : Nat)

/-- One element of the list `download` builds: the dictionary with the
meeting recording information passed on to `upload_and_notify`. -/
structure UploadEntry where
  meeting : String
  file : String
  name : String
  folder_id : String
  slack_channel : String
  date : String
  unix : Int
deriving Repr, DecidableEq

/-- The entry `download` appends for a meeting whose pull succeeded, from
`__main__.py` lines 46–60. -/
def mkUploadEntry (m : Meeting) (d : DateTime) (filename : String) :
    UploadEntry :=
  { meeting := m.name
    file := filename
    name := strftimeYmd d ++ "-" ++ m.name ++ ".mp4"
    folder_id := m.folder_id
    slack_channel := m.slack_channel
    date := strftimeLong d
    unix := unixTimestamp d }

/-- `download` from `__main__.py`: pull every configured meeting in
order with `rm = bool(zoom_conf.delete)`; when the result is truthy
(`res["success"] and res["filename"]`) append the information dictionary,
otherwise skip the meeting silently.  `envOf` supplies the per-meeting
remote environment; the filesystem threads through the pulls.  (On the
guard's success Python reads `res["date"]`; a `None` date there would
raise, which cannot happen for results of `pull_file_from_zoom` — the
fallthrough skips.) -/
def download (cfg : ZoomConfig) (sys : SystemConfig) (now : Nat)
    (envOf : String → ZoomEnv) :
    List Meeting → FileSystem → List UploadEntry × FileSystem
  | [], fs => ([], fs)
  | m :: rest, fs =>
    let (res, fs', _) :=
      pull_file_from_zoom cfg sys now (envOf m.id) m.id cfg.delete fs
    let (tail, fs'') := download cfg sys now envOf rest fs'
    if res.success && optStrTruthy res.filename then
      match res.date, res.filename with
      | some d, some filename => (mkUploadEntry m d filename :: tail, fs'')
      | _, _ => (tail, fs'')
    else
      (tail, fs'')

/-- The exception `drive.upload_file` raises on a failed upload. -/
inductive DriveAPIException where
  | mk (message : String) : DriveAPIException
deriving Repr, DecidableEq

/-- The errors that can escape `upload_and_notify`: a re-raised
`DriveAPIException`, or the `OSError` of `os.remove` on a missing
file. -/
inductive PipelineError where
  | driveError (e : DriveAPIException) : PipelineError
  | fileNotFound (path : String) : PipelineError
deriving Repr, DecidableEq

/-- The external Drive collaborator: `upload_file(file, name, folder_id)`
returns the file's URL or raises `DriveAPIException`. -/
structure PipelineEnv where
  upload_file : String → String → String → Except DriveAPIException String

/-- The Slack message built in `upload_and_notify` for one file and its
upload URL (`__main__.py` lines 85–90). -/
def notifyMessage (f : UploadEntry) (file_url : String) : String :=
  let fall_back := f.date ++ " UTC"
  "The recording of _" ++ f.meeting ++ "_ on _<!date^" ++ toString f.unix
    ++ "^\x7bdate\x7d at \x7btime\x7d|" ++ fall_back ++ ">_ is <"
    ++ file_url ++ "| now available>."

/-- `upload_and_notify` from `__main__.py`: for each file, upload it to
Drive, post the Slack message (`post_message` is modelled as always
succeeding, matching the narrow collaborator interface), then
`os.remove` the local file.  A `DriveAPIException` from the upload is
re-raised, aborting the loop before the message and before the removal;
`os.remove` on a missing path raises.  Returns the final filesystem, the
posted `(message, channel)` pairs and the propagated error, if any. -/
def upload_and_notify (env : PipelineEnv) :
    List UploadEntry → FileSystem → List (String × String) →
    FileSystem × List (String × String) × Option PipelineError
  | [], fs, msgs => (fs, msgs, none)
  | f :: rest, fs, msgs =>
    match env.upload_file f.file f.name f.folder_id with
    | .error e => (fs, msgs, some (.driveError e))
    | .ok file_url =>
      let msgs' := msgs ++ [(notifyMessage f file_url, f.slack_channel)]
      if f.file ∈ fs then
        upload_and_notify env rest (fs.erase f.file) msgs'
      else
        (fs, msgs', some (.fileNotFound f.file))

/-! ## Derived notions used to state the theorems -/

/-- The pull result of one configured meeting (the result component of
`pull_file_from_zoom` does not depend on the incoming filesystem, so it
is evaluated on the empty one). -/
def meetingPull (cfg : ZoomConfig) (sys : SystemConfig) (now : Nat)
    (envOf : String → ZoomEnv) (m : Meeting) : PullResult :=
  (pull_file_from_zoom cfg sys now (envOf m.id) m.id cfg.delete []).1

/-- The guard `res["success"] and res["filename"]` of `download` for one
meeting: its pull succeeded with a truthy (non-`None`, non-empty)
filename. -/
def keepMeeting (cfg : ZoomConfig) (sys : SystemConfig) (now : Nat)
    (envOf : String → ZoomEnv) (m : Meeting) : Bool :=
  (meetingPull cfg sys now envOf m).success
    && optStrTruthy (meetingPull cfg sys now envOf m).filename

/-- The information dictionary `download` builds for a kept meeting,
read off its pull result. -/
def meetingEntry (cfg : ZoomConfig) (sys : SystemConfig) (now : Nat)
    (envOf : String → ZoomEnv) (m : Meeting) : UploadEntry :=
  mkUploadEntry m ((meetingPull cfg sys now envOf m).date.getD ⟨0, 0, 0, 0, 0, 0⟩)
    ((meetingPull cfg sys now envOf m).filename.getD "")

/-! ## Helper lemmas -/

/-- A successful `download_recording` call returns exactly the scratch
path and the filesystem extended with it. -/
theorem download_recording_ok_shape (sys : SystemConfig) (url : String)
    (env : TransferEnv) (fs : FileSystem) (pr : String × FileSystem)
    (h : download_recording sys url env fs = .ok pr) :
    pr = (sys.target_folder ++ "/" ++ lastURLSegment url ++ ".mp4",
          (sys.target_folder ++ "/" ++ lastURLSegment url ++ ".mp4") :: fs) := by
  cases hn : env.networkOk <;> cases hw : env.writeOk <;>
    simp [download_recording, hn, hw] at h
  simp [h.symm]

/-- The result component of `pull_file_from_zoom` does not depend on the
incoming filesystem. -/
theorem pull_fst_fs_independent (cfg : ZoomConfig) (sys : SystemConfig)
    (now : Nat) (env : ZoomEnv) (mid : String) (rm : Bool)
    (fs fs' : FileSystem) :
    (pull_file_from_zoom cfg sys now env mid rm fs).1 =
      (pull_file_from_zoom cfg sys now env mid rm fs').1 := by
  cases hget : get_recording_url mid (generate_jwt cfg now) env.metaStatus
      env.metaFiles with
  | error e => simp [pull_file_from_zoom, hget]
  | ok sel =>
    cases sel with
    | none => simp [pull_file_from_zoom, hget]
    | some s =>
      cases hn : env.transfer.networkOk with
      | false => simp [pull_file_from_zoom, download_recording, hget, hn]
      | true =>
        cases hw : env.transfer.writeOk with
        | false => simp [pull_file_from_zoom, download_recording, hget, hn, hw]
        | true =>
          cases rm <;>
            simp [pull_file_from_zoom, download_recording, hget, hn, hw]

/-- A pull result with `success = True` comes from the no-delete branch:
`rm` was false, the result carries the selection date and the scratch
path, and the returned filesystem is the input one extended with that
path. -/
theorem pull_success_characterization (cfg : ZoomConfig) (sys : SystemConfig)
    (now : Nat) (env : ZoomEnv) (mid : String) (rm : Bool) (fs : FileSystem)
    (h : (pull_file_from_zoom cfg sys now env mid rm fs).1.success = true) :
    rm = false ∧
      ∃ d p, (pull_file_from_zoom cfg sys now env mid rm fs).1 = ⟨true, some d, some p⟩
        ∧ (pull_file_from_zoom cfg sys now env mid rm fs).2.1 = p :: fs := by
  cases hget : get_recording_url mid (generate_jwt cfg now) env.metaStatus
      env.metaFiles with
  | error e => simp [pull_file_from_zoom, hget, failPull] at h
  | ok sel =>
    cases sel with
    | none => simp [pull_file_from_zoom, hget, failPull] at h
    | some s =>
      cases hdl : download_recording sys s.url env.transfer fs with
      | error e => simp [pull_file_from_zoom, hget, hdl, failPull] at h
      | ok pr =>
        have hpr := download_recording_ok_shape sys s.url env.transfer fs pr hdl
        cases rm with
        | true => simp [pull_file_from_zoom, hget, hdl, failPull] at h
        | false =>
          refine ⟨rfl, s.date, pr.1, ?_, ?_⟩ <;>
            simp [pull_file_from_zoom, hget, hdl, hpr]

/-! ## Claim theorems -/

/-- C1: for every meeting id and every failure of a lower-layer step — a
`RemoteAPIError` from the metadata fetch (e.g. a 404 status) or a
filesystem/OS error raised during the download — `pull_file_from_zoom`
absorbs the failure and returns exactly `{success: False, date: None,
filename: None}`.  No exception propagates: the function is total by
construction, returning a `PullResult` rather than an `Except`. -/
theorem pull_absorbs_lower_layer_failures (cfg : ZoomConfig)
    (sys : SystemConfig) (now : Nat) (env : ZoomEnv) (mid : String)
    (rm : Bool) (fs : FileSystem)
    (h : (∃ e, get_recording_url mid (generate_jwt cfg now) env.metaStatus
            env.metaFiles = .error e)
         ∨ env.transfer.writeOk = false) :
    (pull_file_from_zoom cfg sys now env mid rm fs).1 = failPull := by
  rcases h with ⟨e, he⟩ | hw
  · simp [pull_file_from_zoom, he]
  · cases hget : get_recording_url mid (generate_jwt cfg now) env.metaStatus
        env.metaFiles with
    | error e => simp [pull_file_from_zoom, hget]
    | ok sel =>
      cases sel with
      | none => simp [pull_file_from_zoom, hget]
      | some s =>
        cases hn : env.transfer.networkOk with
        | false => simp [pull_file_from_zoom, download_recording, hget, hn]
        | true => simp [pull_file_from_zoom, download_recording, hget, hn, hw]

/-- Witness for C1: a 404 metadata response (the test's
`test_handling_zoom_errors_file_pull` scenario) is absorbed into the
uniform failure value. -/
theorem pull_absorbs_lower_layer_failures_witness :
    (∃ e, get_recording_url "some-meeting-id"
        (generate_jwt ⟨"some-key", "some-secret", true, []⟩ 0) 404 [] = .error e)
    ∧ (pull_file_from_zoom ⟨"some-key", "some-secret", true, []⟩ ⟨"/tmp"⟩ 0
        ⟨404, [], ⟨true, true⟩, 200⟩ "some-meeting-id" true []).1 = failPull :=
  ⟨⟨.remoteAPIError 404 "some-meeting-id", rfl⟩,
   pull_absorbs_lower_layer_failures _ _ _ _ _ _ _
     (Or.inl ⟨.remoteAPIError 404 "some-meeting-id", rfl⟩)⟩

/-- C2: `pull_file_from_zoom(meetingID, True)` returns `{success: False,
date: None, filename: None}` for every environment — in particular for a
metadata response with a media file, a 200 download and a 200 delete.
The delete outcome does not gate success and the delete branch never
yields `success: True`. -/
theorem pull_delete_branch_never_succeeds (cfg : ZoomConfig)
    (sys : SystemConfig) (now : Nat) (env : ZoomEnv) (mid : String)
    (fs : FileSystem) :
    (pull_file_from_zoom cfg sys now env mid true fs).1 = failPull := by
  cases hget : get_recording_url mid (generate_jwt cfg now) env.metaStatus
      env.metaFiles with
  | error e => simp [pull_file_from_zoom, hget]
  | ok sel =>
    cases sel with
    | none => simp [pull_file_from_zoom, hget]
    | some s =>
      cases hdl : download_recording sys s.url env.transfer fs with
      | error e => simp [pull_file_from_zoom, hget, hdl]
      | ok pr => simp [pull_file_from_zoom, hget, hdl]

/-- C3: if a pull result has `success = True`, then the returned
filename holds a path present in the returned filesystem, and, when
deletion was requested, the remote delete returned success (vacuously,
since the delete branch never returns success). -/
theorem pull_success_invariant (cfg : ZoomConfig) (sys : SystemConfig)
    (now : Nat) (env : ZoomEnv) (mid : String) (rm : Bool) (fs : FileSystem)
    (h : (pull_file_from_zoom cfg sys now env mid rm fs).1.success = true) :
    ∃ p, (pull_file_from_zoom cfg sys now env mid rm fs).1.filename = some p
      ∧ p ∈ (pull_file_from_zoom cfg sys now env mid rm fs).2.1
      ∧ (rm = true →
          ∀ rid tok, delete_recording mid rid tok env.deleteStatus = .ok ()) := by
  obtain ⟨hrm, d, p, h1, h2⟩ :=
    pull_success_characterization cfg sys now env mid rm fs h
  refine ⟨p, by rw [h1], ?_, fun hc => by rw [hrm] at hc; exact absurd hc (by simp)⟩
  rw [h2]
  exact List.mem_cons_self p fs

/-- Witness for C3: a fully successful no-delete pull; the invariant
instantiates at it. -/
theorem pull_success_invariant_witness :
    (pull_file_from_zoom ⟨"some-key", "some-secret", false, []⟩ ⟨"/tmp"⟩ 0
      ⟨200, [⟨"MP4", "2018-01-01T01:01:01Z",
        "https://mindsai.zoom.us/recording/share/random-uid",
        "some-recording-id"⟩], ⟨true, true⟩, 200⟩
      "some-meeting-id" false []).1.success = true
    ∧ ∃ p, (pull_file_from_zoom ⟨"some-key", "some-secret", false, []⟩ ⟨"/tmp"⟩ 0
        ⟨200, [⟨"MP4", "2018-01-01T01:01:01Z",
          "https://mindsai.zoom.us/recording/share/random-uid",
          "some-recording-id"⟩], ⟨true, true⟩, 200⟩
        "some-meeting-id" false []).1.filename = some p
      ∧ p ∈ (pull_file_from_zoom ⟨"some-key", "some-secret", false, []⟩ ⟨"/tmp"⟩ 0
          ⟨200, [⟨"MP4", "2018-01-01T01:01:01Z",
            "https://mindsai.zoom.us/recording/share/random-uid",
            "some-recording-id"⟩], ⟨true, true⟩, 200⟩
          "some-meeting-id" false []).2.1
      ∧ (false = true →
          ∀ rid tok, delete_recording "some-meeting-id" rid tok 200 = .ok ()) :=
  ⟨by decide, pull_success_invariant _ _ _ _ _ _ _ (by decide)⟩

/-- C4: `get_recording_url` fails with `RemoteAPIError` carrying the
status code for every status other than exactly 200, and
`delete_recording` fails the same way for every non-2xx status — 404
"already gone" included, never treated as already-deleted success. -/
theorem remote_error_statuses (mid rid : String) (tok : SignedToken)
    (files : List RecordingFile) (st : Nat) :
    (st ≠ 200 →
      get_recording_url mid tok st files = .error (.remoteAPIError st mid))
    ∧ (¬(200 ≤ st ∧ st < 300) →
        delete_recording mid rid tok st = .error (.remoteAPIError st mid)) :=
  ⟨fun h => by simp [get_recording_url, h],
   fun h => by simp [delete_recording, h]⟩

/-- Witness for C4: the statuses exercised by the tests — 300, 404 and
500 for the metadata fetch, 404 for the delete. -/
theorem remote_error_statuses_witness :
    get_recording_url "some-meeting-id" ⟨⟨"some-key", 1800⟩, "some-secret", "HS256"⟩
        300 [] = .error (.remoteAPIError 300 "some-meeting-id")
    ∧ get_recording_url "some-meeting-id" ⟨⟨"some-key", 1800⟩, "some-secret", "HS256"⟩
        404 [] = .error (.remoteAPIError 404 "some-meeting-id")
    ∧ get_recording_url "some-meeting-id" ⟨⟨"some-key", 1800⟩, "some-secret", "HS256"⟩
        500 [] = .error (.remoteAPIError 500 "some-meeting-id")
    ∧ delete_recording "some-meeting-id" "rid" ⟨⟨"some-key", 1800⟩, "some-secret", "HS256"⟩
        404 = .error (.remoteAPIError 404 "some-meeting-id") :=
  ⟨(remote_error_statuses _ "rid" _ [] 300).1 (by decide),
   (remote_error_statuses _ "rid" _ [] 404).1 (by decide),
   (remote_error_statuses _ "rid" _ [] 500).1 (by decide),
   (remote_error_statuses _ "rid" _ [] 404).2 (by omega)⟩

/-- C5: `pull_file_from_zoom(meetingID, True)` on a 200 metadata
response whose file list holds only non-media entries returns the
uniform failure without raising (the function is total) and without
attempting a download: the trace holds the metadata fetch only. -/
theorem pull_no_media_skips_download (cfg : ZoomConfig) (sys : SystemConfig)
    (now : Nat) (env : ZoomEnv) (mid : String) (fs : FileSystem)
    (hstatus : env.metaStatus = 200)
    (hnomedia : ∀ f ∈ env.metaFiles, isMediaType f.file_type = false) :
    pull_file_from_zoom cfg sys now env mid true fs
      = (failPull, fs, [ZoomEvent.metaFetch 200]) := by
  have hfind : env.metaFiles.find? (fun f => isMediaType f.file_type) = none :=
    List.find?_eq_none.mpr fun f hf => by simp [hnomedia f hf]
  have hget : get_recording_url mid (generate_jwt cfg now) 200
      env.metaFiles = .ok none := by
    simp [get_recording_url, hfind]
  simp [pull_file_from_zoom, hstatus, hget]

/-- Witness for C5: the test's chat-transcript-only payload (a single
file of type CHAT). -/
theorem pull_no_media_skips_download_witness :
    (⟨200, [⟨"CHAT", "", "", ""⟩], ⟨true, true⟩, 200⟩ : ZoomEnv).metaStatus = 200
    ∧ (∀ f ∈ (⟨200, [⟨"CHAT", "", "", ""⟩], ⟨true, true⟩, 200⟩ : ZoomEnv).metaFiles,
        isMediaType f.file_type = false)
    ∧ pull_file_from_zoom ⟨"some-key", "some-secret", true, []⟩ ⟨"/tmp"⟩ 0
        ⟨200, [⟨"CHAT", "", "", ""⟩], ⟨true, true⟩, 200⟩ "some-meeting-id" true []
      = (failPull, [], [ZoomEvent.metaFetch 200]) :=
  ⟨rfl, by decide,
   pull_no_media_skips_download _ _ _ _ _ _ rfl (by decide)⟩

/-- C6: on a 200 metadata response whose file list holds one MP4 entry,
`get_recording_url` returns the selection made of that entry's parsed
`recording_start`, its id and its `download_url`. -/
theorem get_recording_url_selects_media (mid : String) (tok : SignedToken)
    (entry : RecordingFile) (dt : DateTime)
    (hm : isMediaType entry.file_type = true)
    (hp : parseZoomTimestamp entry.recording_start = some dt) :
    get_recording_url mid tok 200 [entry]
      = .ok (some ⟨dt, entry.id, entry.download_url⟩) := by
  simp [get_recording_url, List.find?, hm, hp]

/-- Witness for C6: the spec's literal example — `recording_start`
"2018-01-01T01:01:01Z" yields the date 2018-01-01 01:01:01 together with
id "rec-1" and the entry's URL. -/
theorem get_recording_url_selects_media_witness :
    isMediaType "MP4" = true
    ∧ parseZoomTimestamp "2018-01-01T01:01:01Z" = some ⟨2018, 1, 1, 1, 1, 1⟩
    ∧ get_recording_url "some-meeting-id" ⟨⟨"some-key", 1800⟩, "some-secret", "HS256"⟩
        200 [⟨"MP4", "2018-01-01T01:01:01Z", "https://host/share/uid", "rec-1"⟩]
      = .ok (some ⟨⟨2018, 1, 1, 1, 1, 1⟩, "rec-1", "https://host/share/uid"⟩) :=
  ⟨rfl, by decide,
   get_recording_url_selects_media _ _ _ _ rfl (by decide)⟩

/-- C7: on a successful streamed download, `download_recording` writes
the file at the path obtained by joining the scratch directory with the
last path segment of the URL plus the fixed `.mp4` extension, and
returns exactly that path (the returned filesystem is the input one
extended with it). -/
theorem download_recording_writes_scratch_path (sys : SystemConfig)
    (url : String) (env : TransferEnv) (fs : FileSystem)
    (hn : env.networkOk = true) (hw : env.writeOk = true) :
    download_recording sys url env fs =
      .ok (sys.target_folder ++ "/" ++ lastURLSegment url ++ ".mp4",
           (sys.target_folder ++ "/" ++ lastURLSegment url ++ ".mp4") :: fs) := by
  simp [download_recording, hn, hw]

/-- Witness for C7: the test's URL ending in `/random-uid` yields
`/tmp/random-uid.mp4`. -/
theorem download_recording_writes_scratch_path_witness :
    (⟨true, true⟩ : TransferEnv).networkOk = true
    ∧ (⟨true, true⟩ : TransferEnv).writeOk = true
    ∧ download_recording ⟨"/tmp"⟩
        "https://mindsai.zoom.us/recording/share/random-uid" ⟨true, true⟩ []
      = .ok ("/tmp/random-uid.mp4", ["/tmp/random-uid.mp4"]) :=
  ⟨rfl, rfl, by
    rw [download_recording_writes_scratch_path ⟨"/tmp"⟩
      "https://mindsai.zoom.us/recording/share/random-uid" ⟨true, true⟩ [] rfl rfl]
    rfl⟩

/-- C8: `generate_jwt` returns the HS256 token over the configured
secret whose payload has issuer claim equal to the configured key and
expiry claim equal to the call time plus 1800 seconds; a token whose
payload carries a different issuer string is never equal to the
generated one. -/
theorem generate_jwt_issuer_and_expiry (cfg : ZoomConfig) (now : Nat) :
    generate_jwt cfg now = jwt_encode ⟨cfg.key, now + 1800⟩ cfg.secret "HS256"
    ∧ (generate_jwt cfg now).payload.iss = cfg.key
    ∧ (generate_jwt cfg now).payload.exp = now + 1800
    ∧ ∀ (iss : String) (e : Nat), iss ≠ cfg.key →
        jwt_encode ⟨iss, e⟩ cfg.secret "HS256" ≠ generate_jwt cfg now := by
  refine ⟨rfl, rfl, rfl, fun iss e hne heq => hne ?_⟩
  simpa [jwt_encode, generate_jwt] using congrArg (fun t => t.payload.iss) heq

/-- Witness for C8: the test's invalid token, signed with issuer "fake",
differs from the generated one. -/
theorem generate_jwt_issuer_and_expiry_witness :
    ("fake" : String) ≠ "some-key"
    ∧ jwt_encode ⟨"fake", 0⟩ "some-secret" "HS256"
        ≠ generate_jwt ⟨"some-key", "some-secret", false, []⟩ 0 :=
  ⟨by decide,
   (generate_jwt_issuer_and_expiry ⟨"some-key", "some-secret", false, []⟩ 0).2.2.2
     "fake" 0 (by decide)⟩

/-- C9: `upload_and_notify` removes a local file only after the Drive
upload and the Slack notification for it have completed: on
`DriveAPIException` from the upload the error propagates, no message is
posted and the filesystem — the file included — is left untouched; on a
successful upload the message is posted and the file is erased before
the remaining entries are processed. -/
theorem upload_and_notify_removes_only_after_success (env : PipelineEnv)
    (f : UploadEntry) (rest : List UploadEntry) (fs : FileSystem)
    (msgs : List (String × String)) :
    (∀ e, env.upload_file f.file f.name f.folder_id = .error e →
        upload_and_notify env (f :: rest) fs msgs
          = (fs, msgs, some (.driveError e)))
    ∧ (∀ url, env.upload_file f.file f.name f.folder_id = .ok url →
        f.file ∈ fs →
        upload_and_notify env (f :: rest) fs msgs
          = upload_and_notify env rest (fs.erase f.file)
              (msgs ++ [(notifyMessage f url, f.slack_channel)])) :=
  ⟨fun e he => by simp [upload_and_notify, he],
   fun url hu hmem => by simp [upload_and_notify, hu, hmem]⟩

/-- Witness for C9: a failing upload leaves the file in place and
propagates the exception; a succeeding upload posts the message and
erases the file. -/
theorem upload_and_notify_removes_only_after_success_witness :
    (PipelineEnv.mk (fun _ _ _ => .error (.mk "upload failed"))).upload_file
        "/tmp/random-uid.mp4" "20180101-zoom-meeting.mp4" "folder-id"
      = .error (.mk "upload failed")
    ∧ upload_and_notify ⟨fun _ _ _ => .error (.mk "upload failed")⟩
        [⟨"zoom-meeting", "/tmp/random-uid.mp4", "20180101-zoom-meeting.mp4",
          "folder-id", "#meetings", "January 01, 2018 at 01:01", 1514768461⟩]
        ["/tmp/random-uid.mp4"] []
      = (["/tmp/random-uid.mp4"], [],
         some (.driveError (.mk "upload failed")))
    ∧ upload_and_notify ⟨fun _ _ _ => .ok "https://drive/url"⟩
        [⟨"zoom-meeting", "/tmp/random-uid.mp4", "20180101-zoom-meeting.mp4",
          "folder-id", "#meetings", "January 01, 2018 at 01:01", 1514768461⟩]
        ["/tmp/random-uid.mp4"] []
      = upload_and_notify ⟨fun _ _ _ => .ok "https://drive/url"⟩ []
          (["/tmp/random-uid.mp4"].erase "/tmp/random-uid.mp4")
          ([] ++ [(notifyMessage
            ⟨"zoom-meeting", "/tmp/random-uid.mp4", "20180101-zoom-meeting.mp4",
             "folder-id", "#meetings", "January 01, 2018 at 01:01", 1514768461⟩
            "https://drive/url", "#meetings")]) :=
  ⟨rfl,
   (upload_and_notify_removes_only_after_success _ _ _ _ _).1 _ rfl,
   (upload_and_notify_removes_only_after_success _ _ _ _ _).2 _ rfl
     (by decide)⟩

/-- C10: `download` returns exactly one entry per configured meeting
whose pull result has `success = True` and a truthy filename, in the
order of the meetings list; meetings whose pull failed are skipped
silently and do not prevent later ones from being processed. -/
theorem download_keeps_exactly_successful_pulls (cfg : ZoomConfig)
    (sys : SystemConfig) (now : Nat) (envOf : String → ZoomEnv)
    (meetings : List Meeting) (fs : FileSystem) :
    (download cfg sys now envOf meetings fs).1 =
      (meetings.filter (keepMeeting cfg sys now envOf)).map
        (meetingEntry cfg sys now envOf) := by
  induction meetings generalizing fs with
  | nil => simp [download]
  | cons m rest ih =>
    have hres : (pull_file_from_zoom cfg sys now (envOf m.id) m.id cfg.delete fs).1
        = meetingPull cfg sys now envOf m :=
      pull_fst_fs_independent cfg sys now (envOf m.id) m.id cfg.delete fs []
    rcases hpull : pull_file_from_zoom cfg sys now (envOf m.id) m.id cfg.delete fs
      with ⟨res, fs', tr⟩
    rw [hpull] at hres
    rcases hdl : download cfg sys now envOf rest fs' with ⟨tail, fs''⟩
    have htail : tail = (rest.filter (keepMeeting cfg sys now envOf)).map
        (meetingEntry cfg sys now envOf) := by
      have := ih fs'
      rw [hdl] at this
      exact this
    cases hkeep : keepMeeting cfg sys now envOf m with
    | false =>
      have hcond : (res.success && optStrTruthy res.filename) = false := by
        rw [keepMeeting, ← hres] at hkeep
        exact hkeep
      simp [download, hpull, hdl, hcond, List.filter_cons, hkeep, htail]
    | true =>
      have hkeep' := hkeep
      rw [keepMeeting, ← hres] at hkeep'
      simp only [Bool.and_eq_true] at hkeep'
      have hsucc : (pull_file_from_zoom cfg sys now (envOf m.id) m.id cfg.delete
          fs).1.success = true := by
        rw [hpull]
        exact hkeep'.1
      obtain ⟨-, d, p, h1, -⟩ :=
        pull_success_characterization cfg sys now (envOf m.id) m.id cfg.delete fs hsucc
      rw [hpull] at h1
      have h1' : res = ⟨true, some d, some p⟩ := h1
      have hp : p ≠ "" := by
        have h2 := hkeep'.2
        rw [h1'] at h2
        simpa [optStrTruthy] using h2
      have hentry : meetingEntry cfg sys now envOf m = mkUploadEntry m d p := by
        rw [meetingEntry, ← hres]
        rw [show ((res, fs', tr).1 : PullResult) = ⟨true, some d, some p⟩ from h1]
        rfl
      simp [download, hpull, hdl, h1', List.filter_cons, hkeep, htail, hentry,
        optStrTruthy, hp]

end ZoomDrive
